import Mathlib

namespace HostF


/-! ### Definitions -/

/-- Python `int()` applied to a real value: truncation toward zero. -/
def pyInt (q : ℚ) : ℤ := if 0 ≤ q then ⌊q⌋ else ⌈q⌉

/-- Python `%` on floats with a positive divisor: `a - b * floor (a / b)`. -/
def pyMod (a b : ℚ) : ℚ := a - b * ⌊a / b⌋

/-- Value of a digit run, most significant first (as Python `int()`). -/
def digitsToNat (ds : List Char) : ℕ :=
  ds.foldl (fun a c => 10 * a + (c.toNat - 48)) 0

/-- Captured groups of one `(\d+):(\d+):(\d+\.\d+)` match. -/
structure TimeMatch where
  hh : ℕ
  mm : ℕ
  sInt : ℕ
  sFrac : List Char
  deriving DecidableEq, Repr

/-- Embeds `int(h) * 3600 + int(m) * 60 + float(s)` (run.py:197,205). -/
def TimeMatch.seconds (t : TimeMatch) : ℚ :=
  t.hh * 3600 + t.mm * 60 + (t.sInt + (digitsToNat t.sFrac : ℚ) / 10 ^ t.sFrac.length)

/-- Match `(\d+):(\d+):(\d+\.\d+)` at the head of the character list. -/
def matchTimeAt (cs : List Char) : Option TimeMatch :=
  let p1 := cs.span Char.isDigit
  if p1.1.isEmpty then none else
  match p1.2 with
  | ':' :: r2 =>
    let p2 := r2.span Char.isDigit
    if p2.1.isEmpty then none else
    match p2.2 with
    | ':' :: r4 =>
      let p3 := r4.span Char.isDigit
      if p3.1.isEmpty then none else
      match p3.2 with
      | '.' :: r6 =>
        let p4 := r6.span Char.isDigit
        if p4.1.isEmpty then none else
        some ⟨digitsToNat p1.1, digitsToNat p2.1, digitsToNat p3.1, p4.1⟩
      | _ => none
    | _ => none
  | _ => none

/-- Leftmost occurrence of `label` immediately followed by a time match,
mirroring `re.search` on a pattern `label(\d+):(\d+):(\d+\.\d+)`. -/
def searchLabeledTime (label : List Char) : List Char → Option TimeMatch
  | [] => none
  | c :: rest =>
    match (if label.isPrefixOf (c :: rest) then matchTimeAt ((c :: rest).drop label.length) else none) with
    | some t => some t
    | none => searchLabeledTime label rest

/-- Python substring containment (`needle in line`). -/
def containsSub (needle : List Char) : List Char → Bool
  | [] => needle.isEmpty
  | c :: rest => needle.isPrefixOf (c :: rest) || containsSub needle rest

/-- Parser state (run.py:187-189): both fields start unset. -/
structure FFmpegProgressParser where
  duration_seconds : Option ℚ
  current_seconds : Option ℚ
  deriving DecidableEq, Repr

def FFmpegProgressParser.init : FFmpegProgressParser := ⟨none, none⟩

/-- Embeds `parse_duration` (run.py:191-197): guarded by `'Duration:' in line`,
then `re.search(r'Duration: (\d+):(\d+):(\d+\.\d+)', line)`; on a match
the duration field is assigned unconditionally. -/
def parse_duration (p : FFmpegProgressParser) (line : List Char) : FFmpegProgressParser :=
  if containsSub "Duration:".toList line then
    match searchLabeledTime "Duration: ".toList line with
    | some t => { p with duration_seconds := some t.seconds }
    | none => p
  else p

/-- Embeds `parse_progress` (run.py:199-205): guarded by `'time=' in line`, then
`re.search(r'time=(\d+):(\d+):(\d+\.\d+)', line)`; on a match the current
position is assigned unconditionally. -/
def parse_progress (p : FFmpegProgressParser) (line : List Char) : FFmpegProgressParser :=
  if containsSub "time=".toList line then
    match searchLabeledTime "time=".toList line with
    | some t => { p with current_seconds := some t.seconds }
    | none => p
  else p

/-- Embeds `get_progress_percent` (run.py:207-212).  The Python condition
`if self.duration_seconds and self.current_seconds and self.duration_seconds > 0`
tests truthiness: `None` and `0.0` are both falsy. -/
def get_progress_percent (p : FFmpegProgressParser) : Option ℤ :=
  match p.duration_seconds, p.current_seconds with
  | some d, some c =>
    if d ≠ 0 ∧ c ≠ 0 ∧ 0 < d then
      some (min 100 (pyInt (c / d * 100)))
    else none
  | _, _ => none

/-- The monitoring loop (run.py:440-443) feeds every line to
`parse_duration` then `parse_progress`; a parser lives for one file. -/
def observe_lines (lines : List (List Char)) : FFmpegProgressParser :=
  lines.foldl (fun p l => parse_progress (parse_duration p l) l) .init

/-- The value the duration regex extracts from a line, if any
(observation of the combined guard + search of run.py:193-194). -/
def duration_match (line : List Char) : Option ℚ :=
  if containsSub "Duration:".toList line then
    (searchLabeledTime "Duration: ".toList line).map TimeMatch.seconds
  else none

/-- The value the position regex extracts from a line, if any
(observation of the combined guard + search of run.py:201-202). -/
def time_match (line : List Char) : Option ℚ :=
  if containsSub "time=".toList line then
    (searchLabeledTime "time=".toList line).map TimeMatch.seconds
  else none

/-- Parser states whose set fields hold nonnegative values. -/
def ParserNonneg (p : FFmpegProgressParser) : Prop :=
  (∀ d, p.duration_seconds = some d → 0 ≤ d) ∧
  (∀ c, p.current_seconds = some c → 0 ≤ c)

structure EnhancedProgressTracker where
  total_files : ℕ
  current_index : ℕ
  completed_files : ℕ
  failed_files : ℕ
  skipped_files : ℕ
  start_time : ℚ
  file_times : List ℚ
  current_file_start : Option ℚ
  total_input_size : ℕ
  total_output_size : ℕ
  current_file_progress : ℤ
  deriving DecidableEq, Repr

/-- Embeds `__init__` (run.py:54-65). -/
def tracker_init (total_files : ℕ) (now : ℚ) : EnhancedProgressTracker :=
  { total_files := total_files
    current_index := 0
    completed_files := 0
    failed_files := 0
    skipped_files := 0
    start_time := now
    file_times := []
    current_file_start := none
    total_input_size := 0
    total_output_size := 0
    current_file_progress := 0 }

/-- Embeds `start_file` (run.py:67-71). -/
def start_file (t : EnhancedProgressTracker) (index : ℕ) (now : ℚ) : EnhancedProgressTracker :=
  { t with current_index := index, current_file_start := some now, current_file_progress := 0 }

/-- Embeds `update_file_progress` (run.py:73-75). -/
def update_file_progress (t : EnhancedProgressTracker) (progress_percent : ℤ) :
    EnhancedProgressTracker :=
  { t with current_file_progress := progress_percent }

/-- Embeds `complete_file` (run.py:77-95): appends the elapsed duration to the
bounded history (one oldest entry evicted past 15), bumps exactly one of
the three counters, adds byte totals only on non-skipped success, and
resets the current-file progress. -/
def complete_file (t : EnhancedProgressTracker) (success : Bool) (skipped : Bool)
    (input_size output_size : ℕ) (now : ℚ) : EnhancedProgressTracker :=
  let t1 :=
    match t.current_file_start with
    | some s0 =>
      let times := t.file_times ++ [now - s0]
      { t with file_times := if 15 < times.length then times.drop 1 else times }
    | none => t
  let t2 :=
    if skipped then
      { t1 with skipped_files := t1.skipped_files + 1 }
    else if success then
      { t1 with completed_files := t1.completed_files + 1,
                total_input_size := t1.total_input_size + input_size,
                total_output_size := t1.total_output_size + output_size }
    else
      { t1 with failed_files := t1.failed_files + 1 }
  { t2 with current_file_progress := 0 }

/-- Embeds `get_processed_count` (run.py:97-99). -/
def get_processed_count (t : EnhancedProgressTracker) : ℕ :=
  t.completed_files + t.failed_files + t.skipped_files

/-- Embeds `get_overall_progress_percent` (run.py:101-111). -/
def get_overall_progress_percent (t : EnhancedProgressTracker) : ℤ :=
  let processed := get_processed_count t
  if t.total_files = 0 then 100
  else
    let current_file_fraction : ℚ :=
      if processed < t.total_files then (t.current_file_progress : ℚ) / 100 else 0
    let total_progress : ℚ := processed + current_file_fraction
    min 100 (pyInt (total_progress / t.total_files * 100))

/-- Rendered form of the duration strings produced at run.py:131-138 and
144-150: `"…s"`, `"…m …s"` and `"…h …m"` with their integer fields. -/
inductive EtaDisplay where
  | calculating
  | complete
  | secs (s : ℤ)
  | minSec (m s : ℤ)
  | hourMin (h m : ℤ)
  deriving DecidableEq, Repr

/-- The three-way threshold formatting shared by run.py:131-138 (and
146-150): seconds below 60, minutes+seconds below 3600, hours+minutes
above. -/
def fmtDuration (q : ℚ) : EtaDisplay :=
  if q < 60 then .secs (pyInt q)
  else if q < 3600 then .minSec (pyInt (q / 60)) (pyInt (pyMod q 60))
  else .hourMin (pyInt (q / 3600)) (pyInt (pyMod q 3600 / 60))

/-- Embeds `get_eta_formatted` (run.py:113-138). -/
def get_eta_formatted (t : EnhancedProgressTracker) : EtaDisplay :=
  if t.file_times = [] then .calculating
  else
    let processed := get_processed_count t
    let remaining : ℤ := (t.total_files : ℤ) - processed
    if remaining ≤ 0 then .complete
    else
      let avg_time : ℚ := t.file_times.sum / t.file_times.length
      let current_file_remaining : ℚ := ((100 : ℚ) - t.current_file_progress) / 100
      let eta_seconds : ℚ := ((remaining : ℚ) - 1 + current_file_remaining) * avg_time
      fmtDuration eta_seconds

/-- Rendered form of the space-savings string of run.py:179-182: the
branch taken, the byte magnitude passed to `format_size`, and the signed
percentage. -/
inductive SpaceSavingsDisplay where
  | noData
  | saved (amount : ℚ) (percent : ℚ)
  | used (amount : ℚ) (percent : ℚ)
  deriving DecidableEq, Repr

/-- Embeds `get_space_savings` (run.py:164-182). -/
def get_space_savings (t : EnhancedProgressTracker) : SpaceSavingsDisplay :=
  if t.total_input_size = 0 then .noData
  else
    let savings_bytes : ℚ := (t.total_input_size : ℚ) - t.total_output_size
    let savings_percent : ℚ := savings_bytes / t.total_input_size * 100
    if 0 < savings_bytes then .saved savings_bytes savings_percent
    else .used (-savings_bytes) savings_percent

inductive EncoderOutcome where
  /-- the spawned encoder terminates with `code`; `leftoverExists` says
  whether the output file exists afterwards, `unlinkRaises` whether
  deleting it would raise. -/
  | exits (code : ℤ) (leftoverExists : Bool) (unlinkRaises : Bool)
  /-- some `Exception` is raised during steps 2-7 (I/O error, spawn
  failure); `spawned` records whether the encoder got spawned first. -/
  | raisesExc (spawned : Bool)
  /-- a `KeyboardInterrupt` is delivered while this file is processed. -/
  | raisesInterrupt
  deriving DecidableEq, Repr

/-- Observable outcome of `convert_video` (run.py:391-498): the returned
`(bool, str)` pair plus two ghost observations — whether an encoder
process was spawned and whether a leftover output file was deleted. -/
structure DriveResult where
  success : Bool
  result_type : String
  spawned : Bool
  removedOutput : Bool
  deriving DecidableEq, Repr

/-- Embeds `convert_video` (run.py:391-498).  `Except.error ()` is a propagating
`KeyboardInterrupt` (not an `Exception`, so not caught by run.py:495);
every `Exception` is caught there and becomes `(False, "error")`. -/
def convert_video (skip_existing targetExists : Bool) (oc : EncoderOutcome) :
    Except Unit DriveResult :=
  if skip_existing && targetExists then .ok ⟨true, "skipped", false, false⟩
  else
    match oc with
    | .exits code leftoverExists unlinkRaises =>
      if code = 0 then .ok ⟨true, "success", true, false⟩
      else .ok ⟨false, "failed", true, leftoverExists && !unlinkRaises⟩
    | .raisesExc spawned => .ok ⟨false, "error", spawned, false⟩
    | .raisesInterrupt => .error ()

/-- Environment event for one iteration of the loop of run.py:531-564. -/
inductive LoopEvent where
  /-- the loop body runs `convert_video` on this file; `inSize`/`outSize`
  are the `get_file_size` results, `t1`/`t2` the start/completion
  timestamps. -/
  | body (targetExists : Bool) (oc : EncoderOutcome) (inSize outSize : ℕ) (t1 t2 : ℚ)
  /-- an `Exception` is raised in the loop body outside `convert_video`
  (e.g. `get_output_path`), caught by run.py:560-564. -/
  | outsideExc (now : ℚ)
  /-- a `KeyboardInterrupt` is raised in the loop body outside
  `convert_video`, caught by run.py:556-559. -/
  | interrupt
  deriving DecidableEq, Repr

/-- Orchestrator state: the tracker, the `stats` counters and
`failed_files` list of run.py:524-525 (files identified by 1-based
index), plus ghost observations: how many encoder processes were
spawned, whether the loop was interrupted, and the processed count the
interrupt message reports (run.py:558). -/
structure BatchState where
  tracker : EnhancedProgressTracker
  success : ℕ
  failed : ℕ
  skipped : ℕ
  failed_files : List ℕ
  spawns : ℕ
  interrupted : Bool
  reportedProcessed : Option ℕ
  deriving DecidableEq, Repr

/-- State on entering the loop (run.py:521-525), `n` discovered files. -/
def batch_init (n : ℕ) (now : ℚ) : BatchState :=
  { tracker := tracker_init n now
    success := 0
    failed := 0
    skipped := 0
    failed_files := []
    spawns := 0
    interrupted := false
    reportedProcessed := none }

/-- The `except KeyboardInterrupt` branch (run.py:556-559): report `i-1`
files processed and break. -/
def interruptState (st : BatchState) (i : ℕ) : BatchState :=
  { st with interrupted := true, reportedProcessed := some (i - 1) }

/-- run.py:538-551: sizes are looked up, `complete_file` is fed the
outcome, then the `stats` counters and the failed-file list are updated. -/
def applyResult (st : BatchState) (i : ℕ) (dr : DriveResult) (inSize outSize : ℕ)
    (t2 : ℚ) : BatchState :=
  let output_size := if dr.success && !(dr.result_type == "skipped") then outSize else 0
  let tr2 := complete_file st.tracker dr.success (dr.result_type == "skipped")
      inSize output_size t2
  let st2 := { st with tracker := tr2, spawns := st.spawns + (if dr.spawned then 1 else 0) }
  if dr.result_type == "skipped" then { st2 with skipped := st2.skipped + 1 }
  else if dr.success then { st2 with success := st2.success + 1 }
  else { st2 with failed := st2.failed + 1, failed_files := st2.failed_files ++ [i] }

/-- The per-file loop of run.py:531-564, `i` the 1-based index of the
next file. -/
def runLoop (skip_existing : Bool) : ℕ → BatchState → List LoopEvent → BatchState
  | _, st, [] => st
  | i, st, ev :: rest =>
    match ev with
    | .interrupt => interruptState st i
    | .outsideExc now =>
      runLoop skip_existing (i + 1)
        { st with failed := st.failed + 1,
                  failed_files := st.failed_files ++ [i],
                  tracker := complete_file st.tracker false false 0 0 now } rest
    | .body targetExists oc inSize outSize t1 t2 =>
      let tr := start_file st.tracker i t1
      match convert_video skip_existing targetExists oc with
      | .error _ => interruptState { st with tracker := tr } i
      | .ok dr =>
        runLoop skip_existing (i + 1)
          (applyResult { st with tracker := tr } i dr inSize outSize t2) rest

/-- Embeds `convert_all` (run.py:500-582) from the start of its per-file loop:
one event per discovered file, consumed in order. -/
def convert_all (skip_existing : Bool) (events : List LoopEvent) : BatchState :=
  runLoop skip_existing 1 (batch_init events.length 0) events

/-- Exit status assigned by `main` (run.py:611-629) to a run that reaches
the per-file loop: 1 iff some file failed, else 0.  (A `KeyboardInterrupt`
inside the loop is consumed by run.py:556-559 and never reaches the
handler at run.py:623.) -/
def main_exit_code (st : BatchState) : ℕ :=
  if 0 < st.failed then 1 else 0

/-- Does this event deliver a `KeyboardInterrupt`? -/
def isInterruptEvent : LoopEvent → Bool
  | .interrupt => true
  | .body _ .raisesInterrupt _ _ _ _ => true
  | _ => false

/-- An event list that never delivers a `KeyboardInterrupt`. -/
def NoInterrupt (events : List LoopEvent) : Prop :=
  ∀ ev ∈ events, isInterruptEvent ev = false

instance (events : List LoopEvent) : Decidable (NoInterrupt events) :=
  List.decidableBAll _ events

/-- Combined `stats` counter total of run.py:545-550. -/
def statsSum (st : BatchState) : ℕ := st.success + st.failed + st.skipped

def lineDur10 : List Char := "Duration: 00:00:10.00".toList

def lineDur20 : List Char := "Duration: 00:00:20.00".toList

def lineTime5 : List Char := "time=00:00:05.00".toList

def lineTime0 : List Char := "time=00:00:00.00".toList

/-- Tracker mid-file: 3 files total, 1 completed in 10 s, current file
half done. -/
def tracker_c6 : EnhancedProgressTracker :=
  { total_files := 3, current_index := 2, completed_files := 1, failed_files := 0,
    skipped_files := 0, start_time := 0, file_times := [10], current_file_start := some 10,
    total_input_size := 100, total_output_size := 50, current_file_progress := 50 }

/-- Like `tracker_c6` but between files (current-file progress `0`). -/
def tracker_c6w : EnhancedProgressTracker :=
  { tracker_c6 with current_file_progress := 0 }

/-- Tracker after one success of 1000 input bytes and 600 output bytes. -/
def tracker_c7a : EnhancedProgressTracker :=
  { total_files := 1, current_index := 1, completed_files := 1, failed_files := 0,
    skipped_files := 0, start_time := 0, file_times := [10], current_file_start := some 0,
    total_input_size := 1000, total_output_size := 600, current_file_progress := 0 }

/-- Tracker after one success of 1000 input bytes and 1500 output bytes. -/
def tracker_c7b : EnhancedProgressTracker :=
  { tracker_c7a with total_output_size := 1500 }

/-- Tracker with 2 files, 1 completed, current file half done. -/
def tracker_c10 : EnhancedProgressTracker :=
  { total_files := 2, current_index := 2, completed_files := 1, failed_files := 0,
    skipped_files := 0, start_time := 0, file_times := [10], current_file_start := some 0,
    total_input_size := 0, total_output_size := 0, current_file_progress := 50 }

/-- A file that converts cleanly: target absent, encoder exits 0,
100 input bytes, 50 output bytes, one second elapsed. -/
def okEvent : LoopEvent := .body false (.exits 0 false false) 100 50 0 1

/-- A file whose processing raises an `Exception` after the encoder was
spawned. -/
def excEvent : LoopEvent := .body false (.raisesExc true) 100 0 0 1

/-- Five discovered files with a `KeyboardInterrupt` on the third. -/
def events5 : List LoopEvent := [okEvent, okEvent, .interrupt, okEvent, okEvent]

/-! ### Theorems -/

theorem pyInt_eq_floor {q : ℚ} (h : 0 ≤ q) : pyInt q = ⌊q⌋ := if_pos h

theorem pyInt_nonneg {q : ℚ} (h : 0 ≤ q) : 0 ≤ pyInt q := by
  rw [pyInt_eq_floor h]
  exact Int.floor_nonneg.mpr h

/-- Lemma: `parse_duration` overwrites the duration with any matched value and
otherwise leaves the state unchanged; it never touches the position. -/
theorem parse_duration_eq (p : FFmpegProgressParser) (line : List Char) :
    parse_duration p line =
      match duration_match line with
      | some v => { p with duration_seconds := some v }
      | none => p := by
  rw [parse_duration, duration_match]
  cases hc : containsSub "Duration:".toList line
  · simp only [hc, Bool.false_eq_true, if_false]
  · simp only [hc, if_true]
    cases searchLabeledTime "Duration: ".toList line <;> rfl

/-- Lemma: `parse_progress` overwrites the position with any matched value and
otherwise leaves the state unchanged; it never touches the duration. -/
theorem parse_progress_eq (p : FFmpegProgressParser) (line : List Char) :
    parse_progress p line =
      match time_match line with
      | some v => { p with current_seconds := some v }
      | none => p := by
  rw [parse_progress, time_match]
  cases hc : containsSub "time=".toList line
  · simp only [hc, Bool.false_eq_true, if_false]
  · simp only [hc, if_true]
    cases searchLabeledTime "time=".toList line <;> rfl

theorem TimeMatch.seconds_nonneg (t : TimeMatch) : 0 ≤ t.seconds := by
  rw [TimeMatch.seconds]
  positivity

theorem duration_match_nonneg {line : List Char} {v : ℚ}
    (h : duration_match line = some v) : 0 ≤ v := by
  rw [duration_match] at h
  split at h
  · rcases Option.map_eq_some'.mp h with ⟨t, _, ht⟩
    exact ht ▸ TimeMatch.seconds_nonneg t
  · cases h

theorem time_match_nonneg {line : List Char} {v : ℚ}
    (h : time_match line = some v) : 0 ≤ v := by
  rw [time_match] at h
  split at h
  · rcases Option.map_eq_some'.mp h with ⟨t, _, ht⟩
    exact ht ▸ TimeMatch.seconds_nonneg t
  · cases h

theorem parse_duration_nonneg {p : FFmpegProgressParser} (line : List Char)
    (h : ParserNonneg p) : ParserNonneg (parse_duration p line) := by
  rw [parse_duration_eq]
  rcases hd : duration_match line with _ | v
  · exact h
  · refine ⟨fun x hx => ?_, h.2⟩
    obtain rfl : v = x := by simpa using hx
    exact duration_match_nonneg hd

theorem parse_progress_nonneg {p : FFmpegProgressParser} (line : List Char)
    (h : ParserNonneg p) : ParserNonneg (parse_progress p line) := by
  rw [parse_progress_eq]
  rcases ht : time_match line with _ | v
  · exact h
  · refine ⟨h.1, fun x hx => ?_⟩
    obtain rfl : v = x := by simpa using hx
    exact time_match_nonneg ht

theorem observe_lines_nonneg (lines : List (List Char)) :
    ParserNonneg (observe_lines lines) := by
  rw [observe_lines]
  have h0 : ParserNonneg FFmpegProgressParser.init :=
    ⟨fun x hx => (nomatch hx), fun x hx => (nomatch hx)⟩
  generalize FFmpegProgressParser.init = p0 at h0 ⊢
  induction lines generalizing p0 with
  | nil => exact h0
  | cons l rest ih =>
    exact ih _ (parse_progress_nonneg l (parse_duration_nonneg l h0))

/-- Each completion bumps the processed count by exactly one,
whichever counter it lands in. -/
theorem get_processed_count_complete_file (t : EnhancedProgressTracker)
    (success skipped : Bool) (input_size output_size : ℕ) (now : ℚ) :
    get_processed_count (complete_file t success skipped input_size output_size now) =
      get_processed_count t + 1 := by
  rw [complete_file, get_processed_count, get_processed_count]
  cases t.current_file_start <;> cases skipped <;> cases success <;>
    simp <;> omega

/-- Lemma: `complete_file` with `success = false` (or `skipped = true`) leaves
the cumulative input byte total untouched. -/
theorem total_input_size_complete_file_not_success (t : EnhancedProgressTracker)
    (skipped : Bool) (input_size output_size : ℕ) (now : ℚ) :
    (complete_file t false skipped input_size output_size now).total_input_size =
      t.total_input_size := by
  rw [complete_file]
  cases t.current_file_start <;> cases skipped <;> simp

theorem convert_video_error_imp (skip_existing targetExists : Bool)
    (oc : EncoderOutcome) (u : Unit)
    (h : convert_video skip_existing targetExists oc = .error u) :
    oc = .raisesInterrupt := by
  cases oc with
  | exits code leftoverExists unlinkRaises =>
    exfalso
    unfold convert_video at h
    by_cases hs : (skip_existing && targetExists) = true
    · simp [hs] at h
    · by_cases hc : code = 0 <;> simp [hs, hc] at h
  | raisesExc spawned =>
    exfalso
    unfold convert_video at h
    by_cases hs : (skip_existing && targetExists) = true <;> simp [hs] at h
  | raisesInterrupt => rfl

theorem applyResult_tracker (st : BatchState) (i : ℕ) (dr : DriveResult)
    (inSize outSize : ℕ) (t2 : ℚ) :
    (applyResult st i dr inSize outSize t2).tracker =
      complete_file st.tracker dr.success (dr.result_type == "skipped") inSize
        (if dr.success && !(dr.result_type == "skipped") then outSize else 0) t2 := by
  simp only [applyResult]
  split_ifs <;> rfl

theorem applyResult_processed (st : BatchState) (i : ℕ) (dr : DriveResult)
    (inSize outSize : ℕ) (t2 : ℚ) :
    get_processed_count (applyResult st i dr inSize outSize t2).tracker =
      get_processed_count st.tracker + 1 := by
  rw [applyResult_tracker, get_processed_count_complete_file]

theorem applyResult_statsSum (st : BatchState) (i : ℕ) (dr : DriveResult)
    (inSize outSize : ℕ) (t2 : ℚ) :
    statsSum (applyResult st i dr inSize outSize t2) = statsSum st + 1 := by
  simp only [applyResult, statsSum]
  split_ifs <;> simp <;> omega

theorem applyResult_interrupted (st : BatchState) (i : ℕ) (dr : DriveResult)
    (inSize outSize : ℕ) (t2 : ℚ) :
    (applyResult st i dr inSize outSize t2).interrupted = st.interrupted := by
  simp only [applyResult]
  split_ifs <;> rfl

theorem start_file_processed (t : EnhancedProgressTracker) (i : ℕ) (now : ℚ) :
    get_processed_count (start_file t i now) = get_processed_count t := rfl

theorem NoInterrupt_cons {ev : LoopEvent} {rest : List LoopEvent}
    (h : NoInterrupt (ev :: rest)) :
    isInterruptEvent ev = false ∧ NoInterrupt rest :=
  ⟨h ev (List.mem_cons_self ev rest), fun e he => h e (List.mem_cons_of_mem _ he)⟩

/-- The processed count never exceeds the starting count plus the number
of events handed to the loop, interruptions included. -/
theorem runLoop_processed_le (skip_existing : Bool) :
    ∀ (events : List LoopEvent) (i : ℕ) (st : BatchState),
      get_processed_count (runLoop skip_existing i st events).tracker ≤
        get_processed_count st.tracker + events.length := by
  intro events
  induction events with
  | nil => intro i st; simp [runLoop]
  | cons ev rest ih =>
    intro i st
    cases ev with
    | interrupt =>
      simp [runLoop, interruptState]
    | outsideExc now =>
      simp only [runLoop]
      refine le_trans (ih _ _) ?_
      simp [get_processed_count_complete_file, List.length_cons]
      omega
    | body targetExists oc inSize outSize t1 t2 =>
      simp only [runLoop]
      cases hcv : convert_video skip_existing targetExists oc with
      | error u =>
        simp [interruptState, start_file_processed]
      | ok dr =>
        refine le_trans (ih _ _) ?_
        simp [applyResult_processed, start_file_processed, List.length_cons]
        omega

/-- Without interruption every event contributes exactly one completion. -/
theorem runLoop_processed_eq (skip_existing : Bool) :
    ∀ (events : List LoopEvent), NoInterrupt events →
      ∀ (i : ℕ) (st : BatchState),
        get_processed_count (runLoop skip_existing i st events).tracker =
          get_processed_count st.tracker + events.length := by
  intro events
  induction events with
  | nil => intro _ i st; simp [runLoop]
  | cons ev rest ih =>
    intro h i st
    obtain ⟨hev, hrest⟩ := NoInterrupt_cons h
    cases ev with
    | interrupt => simp [isInterruptEvent] at hev
    | outsideExc now =>
      simp only [runLoop]
      rw [ih hrest]
      simp [get_processed_count_complete_file, List.length_cons]
      omega
    | body targetExists oc inSize outSize t1 t2 =>
      simp only [runLoop]
      cases hcv : convert_video skip_existing targetExists oc with
      | error u =>
        obtain rfl := convert_video_error_imp _ _ _ _ hcv
        simp [isInterruptEvent] at hev
      | ok dr =>
        rw [ih hrest]
        simp [applyResult_processed, start_file_processed, List.length_cons]
        omega

/-- The `stats` counters of run.py:545-550 stay in lockstep with the
tracker's counters. -/
theorem runLoop_statsSum (skip_existing : Bool) :
    ∀ (events : List LoopEvent) (i : ℕ) (st : BatchState),
      statsSum st = get_processed_count st.tracker →
      statsSum (runLoop skip_existing i st events) =
        get_processed_count (runLoop skip_existing i st events).tracker := by
  intro events
  induction events with
  | nil => intro i st h; simpa [runLoop] using h
  | cons ev rest ih =>
    intro i st h
    cases ev with
    | interrupt =>
      simpa [runLoop, interruptState, statsSum, get_processed_count] using h
    | outsideExc now =>
      simp only [runLoop]
      refine ih _ _ ?_
      simp only [statsSum, get_processed_count_complete_file]
      simp only [statsSum, get_processed_count] at h ⊢
      omega
    | body targetExists oc inSize outSize t1 t2 =>
      simp only [runLoop]
      cases hcv : convert_video skip_existing targetExists oc with
      | error u =>
        simpa [interruptState, statsSum, start_file_processed, get_processed_count,
          start_file] using h
      | ok dr =>
        refine ih _ _ ?_
        rw [applyResult_statsSum, applyResult_processed]
        simpa [start_file_processed] using h

/-- An interrupt-free event list never sets the interrupted flag. -/
theorem runLoop_not_interrupted (skip_existing : Bool) :
    ∀ (events : List LoopEvent), NoInterrupt events →
      ∀ (i : ℕ) (st : BatchState),
        (runLoop skip_existing i st events).interrupted = st.interrupted := by
  intro events
  induction events with
  | nil => intro _ i st; rfl
  | cons ev rest ih =>
    intro h i st
    obtain ⟨hev, hrest⟩ := NoInterrupt_cons h
    cases ev with
    | interrupt => simp [isInterruptEvent] at hev
    | outsideExc now =>
      simp only [runLoop]
      rw [ih hrest]
    | body targetExists oc inSize outSize t1 t2 =>
      simp only [runLoop]
      cases hcv : convert_video skip_existing targetExists oc with
      | error u =>
        obtain rfl := convert_video_error_imp _ _ _ _ hcv
        simp [isInterruptEvent] at hev
      | ok dr =>
        rw [ih hrest, applyResult_interrupted]

/-- A `KeyboardInterrupt` after an interrupt-free prefix ends the run in
the state reached after that prefix, with the interrupt bookkeeping of
run.py:556-559; the events after it are never consumed. -/
theorem runLoop_interrupt_eq (skip_existing : Bool) :
    ∀ (pre : List LoopEvent), NoInterrupt pre →
      ∀ (post : List LoopEvent) (i : ℕ) (st : BatchState),
        runLoop skip_existing i st (pre ++ LoopEvent.interrupt :: post) =
          interruptState (runLoop skip_existing i st pre) (i + pre.length) := by
  intro pre
  induction pre with
  | nil => intro _ post i st; rfl
  | cons ev rest ih =>
    intro h post i st
    obtain ⟨hev, hrest⟩ := NoInterrupt_cons h
    cases ev with
    | interrupt => simp [isInterruptEvent] at hev
    | outsideExc now =>
      simp only [List.cons_append, runLoop, List.append_eq]
      rw [ih hrest]
      congr 1
      simp [List.length_cons]
      omega
    | body targetExists oc inSize outSize t1 t2 =>
      cases hcv : convert_video skip_existing targetExists oc with
      | error u =>
        obtain rfl := convert_video_error_imp _ _ _ _ hcv
        simp [isInterruptEvent] at hev
      | ok dr =>
        simp only [List.cons_append, runLoop, hcv, List.append_eq]
        rw [ih hrest]
        congr 1
        simp [List.length_cons]
        omega

theorem seconds_whole (n : ℕ) : TimeMatch.seconds ⟨0, 0, n, ['0', '0']⟩ = n := by
  have h : digitsToNat ['0', '0'] = 0 := by decide
  simp [TimeMatch.seconds, h]

theorem dm_dur10 : duration_match lineDur10 = some 10 := by
  have hc : containsSub "Duration:".toList lineDur10 = true := by decide
  have hs : searchLabeledTime "Duration: ".toList lineDur10 =
      some ⟨0, 0, 10, ['0', '0']⟩ := by decide
  rw [duration_match, if_pos hc, hs, Option.map_some', seconds_whole]
  norm_num

theorem dm_dur20 : duration_match lineDur20 = some 20 := by
  have hc : containsSub "Duration:".toList lineDur20 = true := by decide
  have hs : searchLabeledTime "Duration: ".toList lineDur20 =
      some ⟨0, 0, 20, ['0', '0']⟩ := by decide
  rw [duration_match, if_pos hc, hs, Option.map_some', seconds_whole]
  norm_num

theorem tm_time5 : time_match lineTime5 = some 5 := by
  have hc : containsSub "time=".toList lineTime5 = true := by decide
  have hs : searchLabeledTime "time=".toList lineTime5 =
      some ⟨0, 0, 5, ['0', '0']⟩ := by decide
  rw [time_match, if_pos hc, hs, Option.map_some', seconds_whole]
  norm_num

theorem tm_time0 : time_match lineTime0 = some 0 := by
  have hc : containsSub "time=".toList lineTime0 = true := by decide
  have hs : searchLabeledTime "time=".toList lineTime0 =
      some ⟨0, 0, 0, ['0', '0']⟩ := by decide
  rw [time_match, if_pos hc, hs, Option.map_some', seconds_whole]
  norm_num

theorem tm_dur10 : time_match lineDur10 = none := by
  have hc : containsSub "time=".toList lineDur10 = false := by decide
  rw [time_match, hc]
  simp

theorem tm_dur20 : time_match lineDur20 = none := by
  have hc : containsSub "time=".toList lineDur20 = false := by decide
  rw [time_match, hc]
  simp

theorem dm_time5 : duration_match lineTime5 = none := by
  have hc : containsSub "Duration:".toList lineTime5 = false := by decide
  rw [duration_match, hc]
  simp

theorem dm_time0 : duration_match lineTime0 = none := by
  have hc : containsSub "Duration:".toList lineTime0 = false := by decide
  rw [duration_match, hc]
  simp

theorem observe_dur10_time5 :
    observe_lines [lineDur10, lineTime5] = ⟨some 10, some 5⟩ := by
  simp only [observe_lines, List.foldl_cons, List.foldl_nil,
    parse_duration_eq, parse_progress_eq, dm_dur10, tm_dur10, dm_time5, tm_time5,
    FFmpegProgressParser.init]

theorem observe_dur10_time0 :
    observe_lines [lineDur10, lineTime0] = ⟨some 10, some 0⟩ := by
  simp only [observe_lines, List.foldl_cons, List.foldl_nil,
    parse_duration_eq, parse_progress_eq, dm_dur10, tm_dur10, dm_time0, tm_time0,
    FFmpegProgressParser.init]

theorem observe_dur10_dur20 :
    observe_lines [lineDur10, lineDur20] = ⟨some 20, none⟩ := by
  simp only [observe_lines, List.foldl_cons, List.foldl_nil,
    parse_duration_eq, parse_progress_eq, dm_dur10, tm_dur10, dm_dur20, tm_dur20,
    FFmpegProgressParser.init]

theorem get_progress_percent_eval (d c : ℚ) (h1 : d ≠ 0) (h2 : c ≠ 0) (h3 : 0 < d) :
    get_progress_percent ⟨some d, some c⟩ = some (min 100 (pyInt (c / d * 100))) := by
  simp only [get_progress_percent]
  rw [if_pos ⟨h1, h2, h3⟩]

/-- C2 (amended): for every parser state reached by observing a sequence
of lines, a returned percentage is an integer in `[0, 100]` and equals
`min 100 ⌊position / duration * 100⌋` with both fields set and positive;
the percentage is unset whenever either field is unobserved, the duration
is zero, or — contrary to the claim as stated — the observed position is
zero (the truthiness test of run.py:209 treats `0.0` like `None`). -/
theorem get_progress_percent_range (lines : List (List Char)) :
    (∀ v, get_progress_percent (observe_lines lines) = some v →
      0 ≤ v ∧ v ≤ 100 ∧
      ∃ d c, (observe_lines lines).duration_seconds = some d ∧
        (observe_lines lines).current_seconds = some c ∧
        0 < d ∧ 0 < c ∧ v = min 100 ⌊c / d * 100⌋) ∧
    ((observe_lines lines).duration_seconds = none ∨
      (observe_lines lines).current_seconds = none ∨
      (observe_lines lines).duration_seconds = some 0 ∨
      (observe_lines lines).current_seconds = some 0 →
      get_progress_percent (observe_lines lines) = none) := by
  have hn := observe_lines_nonneg lines
  constructor
  · intro v hv
    rcases hd : (observe_lines lines).duration_seconds with _ | d <;>
      rcases hc : (observe_lines lines).current_seconds with _ | c <;>
      simp only [get_progress_percent, hd, hc] at hv
    · cases hv
    · cases hv
    · cases hv
    · split at hv
      · rename_i hcond
        obtain ⟨h1, h2, h3⟩ := hcond
        have hdnn : 0 ≤ d := hn.1 d hd
        have hcnn : 0 ≤ c := hn.2 c hc
        have hcpos : 0 < c := lt_of_le_of_ne hcnn (Ne.symm h2)
        have hx : 0 ≤ c / d * 100 :=
          mul_nonneg (div_nonneg hcnn hdnn) (by norm_num)
        obtain rfl : min 100 (pyInt (c / d * 100)) = v := by injection hv
        refine ⟨?_, min_le_left _ _, d, c, rfl, rfl, h3, hcpos, ?_⟩
        · exact le_min (by norm_num) (pyInt_nonneg hx)
        · rw [pyInt_eq_floor hx]
      · cases hv
  · intro hcase
    rcases hd : (observe_lines lines).duration_seconds with _ | d <;>
      rcases hc : (observe_lines lines).current_seconds with _ | c <;>
      simp only [get_progress_percent, hd, hc]
    apply if_neg
    rintro ⟨h1, h2, h3⟩
    rcases hcase with h | h | h | h
    · rw [hd] at h; cases h
    · rw [hc] at h; cases h
    · rw [hd] at h
      injection h with h4
      exact h1 h4
    · rw [hc] at h
      injection h with h4
      exact h2 h4

/-- C2 witness: from duration `00:00:10.00` and position `00:00:05.00`
the parser reports `50`, which the theorem places in `[0, 100]`. -/
theorem get_progress_percent_range_witness :
    get_progress_percent (observe_lines [lineDur10, lineTime5]) = some 50 ∧
      (0 : ℤ) ≤ 50 ∧ (50 : ℤ) ≤ 100 := by
  have hp : get_progress_percent (observe_lines [lineDur10, lineTime5]) = some 50 := by
    rw [observe_dur10_time5,
      get_progress_percent_eval 10 5 (by norm_num) (by norm_num) (by norm_num)]
    congr 1
    have h1 : (5 : ℚ) / 10 * 100 = 50 := by norm_num
    have h2 : (50 : ℚ) = ((50 : ℤ) : ℚ) := by norm_num
    rw [h1, pyInt_eq_floor (by norm_num), h2, Int.floor_intCast]
    decide
  have h := (get_progress_percent_range [lineDur10, lineTime5]).1 50 hp
  exact ⟨hp, h.1, h.2.1⟩

/-- C2 counterexample: after duration `00:00:10.00` and position
`00:00:00.00` both fields have been observed and the duration is
nonzero, yet the percentage is unset — the claim as stated demands
`floor(100 * 0 / 10) = 0`. -/
theorem get_progress_percent_zero_position_counterexample :
    (observe_lines [lineDur10, lineTime0]).duration_seconds = some 10 ∧
      (observe_lines [lineDur10, lineTime0]).current_seconds = some 0 ∧
      get_progress_percent (observe_lines [lineDur10, lineTime0]) = none ∧
      min 100 ⌊(0 : ℚ) / 10 * 100⌋ = 0 := by
  rw [observe_dur10_time0]
  refine ⟨rfl, rfl, ?_, ?_⟩
  · simp only [get_progress_percent]
    apply if_neg
    rintro ⟨h1, h2, h3⟩
    exact h2 rfl
  · have h1 : (0 : ℚ) / 10 * 100 = 0 := by norm_num
    rw [h1, Int.floor_zero]
    decide

/-- C3 (amended): both parser fields are last-write-wins — a line
matching the duration marker OVERWRITES any previously stored duration
(run.py:197 assigns unconditionally; there is no first-wins guard), and
likewise for the position marker; a non-matching line leaves the state
unchanged, and neither scan touches the other field. -/
theorem parser_last_write_wins (p : FFmpegProgressParser) (line : List Char) :
    (parse_duration p line =
      match duration_match line with
      | some v => { p with duration_seconds := some v }
      | none => p) ∧
    (parse_progress p line =
      match time_match line with
      | some v => { p with current_seconds := some v }
      | none => p) :=
  ⟨parse_duration_eq p line, parse_progress_eq p line⟩

/-- C3 counterexample: feeding `Duration: 00:00:10.00` and then
`Duration: 00:00:20.00` leaves the duration at `20`, not at the first
value `10` the claim demands. -/
theorem duration_second_match_overwrites :
    (observe_lines [lineDur10, lineDur20]).duration_seconds = some 20 ∧
      (20 : ℚ) ≠ 10 := by
  rw [observe_dur10_dur20]
  exact ⟨rfl, by norm_num⟩

theorem pyInt_eq_int (q : ℚ) (n : ℤ) (h1 : (n : ℚ) ≤ q) (h2 : q < n + 1) (h0 : 0 ≤ q) :
    pyInt q = n := by
  rw [pyInt_eq_floor h0]
  exact Int.floor_eq_iff.mpr ⟨h1, h2⟩

theorem fmtDuration_45 : fmtDuration 45 = .secs 45 := by
  rw [fmtDuration, if_pos (by norm_num : (45 : ℚ) < 60),
    pyInt_eq_int 45 45 (by norm_num) (by norm_num) (by norm_num)]

theorem fmtDuration_125 : fmtDuration 125 = .minSec 2 5 := by
  rw [fmtDuration, if_neg (by norm_num : ¬(125 : ℚ) < 60),
    if_pos (by norm_num : (125 : ℚ) < 3600)]
  have hm : pyMod 125 60 = 5 := by
    rw [pyMod, show ⌊(125 : ℚ) / 60⌋ = 2 from Int.floor_eq_iff.mpr ⟨by norm_num, by norm_num⟩]
    norm_num
  rw [pyInt_eq_int (125 / 60) 2 (by norm_num) (by norm_num) (by norm_num), hm,
    pyInt_eq_int 5 5 (by norm_num) (by norm_num) (by norm_num)]

theorem fmtDuration_4000 : fmtDuration 4000 = .hourMin 1 6 := by
  rw [fmtDuration, if_neg (by norm_num : ¬(4000 : ℚ) < 60),
    if_neg (by norm_num : ¬(4000 : ℚ) < 3600)]
  have hm : pyMod 4000 3600 = 400 := by
    rw [pyMod, show ⌊(4000 : ℚ) / 3600⌋ = 1 from Int.floor_eq_iff.mpr ⟨by norm_num, by norm_num⟩]
    norm_num
  rw [pyInt_eq_int (4000 / 3600) 1 (by norm_num) (by norm_num) (by norm_num), hm,
    pyInt_eq_int (400 / 60) 6 (by norm_num) (by norm_num) (by norm_num)]

theorem get_eta_formatted_eval (t : EnhancedProgressTracker)
    (h1 : t.file_times ≠ [])
    (h2 : 0 < (t.total_files : ℤ) - get_processed_count t) :
    get_eta_formatted t =
      fmtDuration (((((t.total_files : ℤ) - get_processed_count t : ℤ) : ℚ) - 1 +
        ((100 : ℚ) - t.current_file_progress) / 100) *
        (t.file_times.sum / t.file_times.length)) := by
  simp only [get_eta_formatted]
  rw [if_neg h1, if_neg (not_le.mpr h2)]

/-- C6 (amended): the ETA is unset (`calculating...`) exactly when the
duration history is empty; with a nonempty history and nothing remaining
it renders `complete`; otherwise the displayed value is
`(remaining - 1 + (100 - currentFileProgress)/100) * mean(history)`
seconds — which reduces to the claimed `remaining * mean(history)`
exactly when the current file's progress is `0` — formatted with the
60 s / 3600 s thresholds, giving `45 → "45s"`, `125 → "2m 5s"`,
`4000 → "1h 6m"`. -/
theorem eta_formula_spec (t : EnhancedProgressTracker) :
    (t.file_times = [] → get_eta_formatted t = .calculating) ∧
    (t.file_times ≠ [] → (t.total_files : ℤ) - get_processed_count t ≤ 0 →
      get_eta_formatted t = .complete) ∧
    (t.file_times ≠ [] → 0 < (t.total_files : ℤ) - get_processed_count t →
      t.current_file_progress = 0 →
      get_eta_formatted t =
        fmtDuration ((((t.total_files : ℤ) - get_processed_count t : ℤ) : ℚ) *
          (t.file_times.sum / t.file_times.length))) ∧
    fmtDuration 45 = .secs 45 ∧ fmtDuration 125 = .minSec 2 5 ∧
    fmtDuration 4000 = .hourMin 1 6 := by
  refine ⟨fun h => ?_, fun h1 h2 => ?_, fun h1 h2 h3 => ?_,
    fmtDuration_45, fmtDuration_125, fmtDuration_4000⟩
  · simp only [get_eta_formatted]
    rw [if_pos h]
  · simp only [get_eta_formatted]
    rw [if_neg h1, if_pos h2]
  · rw [get_eta_formatted_eval t h1 h2, h3]
    congr 1
    push_cast
    ring

/-- C6 witness: with history `[10]`, two files remaining and no
current-file progress, the ETA renders `"20s"` = remaining * mean. -/
theorem eta_formula_spec_witness : get_eta_formatted tracker_c6w = .secs 20 := by
  have h := (eta_formula_spec tracker_c6w).2.2.1 (by decide) (by decide) rfl
  rw [h]
  have harg : ((((tracker_c6w.total_files : ℤ) - get_processed_count tracker_c6w : ℤ) : ℚ) *
      (tracker_c6w.file_times.sum / tracker_c6w.file_times.length)) = 20 := by
    norm_num [tracker_c6w, tracker_c6, get_processed_count]
  rw [harg, fmtDuration, if_pos (by norm_num : (20 : ℚ) < 60),
    pyInt_eq_int 20 20 (by norm_num) (by norm_num) (by norm_num)]

/-- C6 counterexample: same tracker but with the current file at 50%:
the code shows `"15s"` where the claimed `remaining * mean(history)`
formula gives `20` seconds, i.e. `"20s"`. -/
theorem eta_midfile_progress_counterexample :
    get_eta_formatted tracker_c6 = .secs 15 ∧
      ((((tracker_c6.total_files : ℤ) - get_processed_count tracker_c6 : ℤ) : ℚ) *
        (tracker_c6.file_times.sum / tracker_c6.file_times.length)) = 20 ∧
      fmtDuration 20 = .secs 20 ∧
      EtaDisplay.secs 15 ≠ EtaDisplay.secs 20 := by
  refine ⟨?_, ?_, ?_, by decide⟩
  · rw [get_eta_formatted_eval tracker_c6 (by decide) (by decide)]
    have harg : (((((tracker_c6.total_files : ℤ) - get_processed_count tracker_c6 : ℤ) : ℚ) - 1 +
        ((100 : ℚ) - tracker_c6.current_file_progress) / 100) *
        (tracker_c6.file_times.sum / tracker_c6.file_times.length)) = 15 := by
      norm_num [tracker_c6, get_processed_count]
    rw [harg, fmtDuration, if_pos (by norm_num : (15 : ℚ) < 60),
      pyInt_eq_int 15 15 (by norm_num) (by norm_num) (by norm_num)]
  · norm_num [tracker_c6, get_processed_count]
  · rw [fmtDuration, if_pos (by norm_num : (20 : ℚ) < 60),
      pyInt_eq_int 20 20 (by norm_num) (by norm_num) (by norm_num)]

theorem get_space_savings_noData {t : EnhancedProgressTracker}
    (h : t.total_input_size = 0) : get_space_savings t = .noData := by
  simp only [get_space_savings]
  rw [if_pos h]

theorem get_space_savings_saved {t : EnhancedProgressTracker}
    (h : t.total_output_size < t.total_input_size) :
    get_space_savings t =
      .saved ((t.total_input_size : ℚ) - t.total_output_size)
        (((t.total_input_size : ℚ) - t.total_output_size) / t.total_input_size * 100) := by
  have hin : 0 < t.total_input_size := lt_of_le_of_lt (Nat.zero_le _) h
  simp only [get_space_savings]
  rw [if_neg (Nat.pos_iff_ne_zero.mp hin),
    if_pos (sub_pos.mpr (by exact_mod_cast h))]

theorem get_space_savings_used {t : EnhancedProgressTracker}
    (h1 : 0 < t.total_input_size) (h2 : t.total_input_size < t.total_output_size) :
    get_space_savings t =
      .used (-((t.total_input_size : ℚ) - t.total_output_size))
        (((t.total_input_size : ℚ) - t.total_output_size) / t.total_input_size * 100) := by
  simp only [get_space_savings]
  rw [if_neg (Nat.pos_iff_ne_zero.mp h1),
    if_neg (not_lt.mpr (le_of_lt (sub_neg.mpr (by exact_mod_cast h2))))]

/-- C7 (amended): the no-data value is shown exactly when the cumulative
input byte total is zero — which holds whenever there has been no
successful conversion, since only successes add bytes, but also after a
success whose recorded input size was zero.  With positive input bytes
the claimed sign convention holds: smaller output renders `saved` with a
positive percentage, larger output renders `used` with a negative
percentage, with the absolute byte delta shown in both branches. -/
theorem space_savings_spec :
    (∀ t : EnhancedProgressTracker, t.total_input_size = 0 →
      get_space_savings t = .noData) ∧
    (∀ t : EnhancedProgressTracker, t.total_output_size < t.total_input_size →
      get_space_savings t =
        .saved ((t.total_input_size : ℚ) - t.total_output_size)
          (((t.total_input_size : ℚ) - t.total_output_size) / t.total_input_size * 100) ∧
        0 < ((t.total_input_size : ℚ) - t.total_output_size) / t.total_input_size * 100) ∧
    (∀ t : EnhancedProgressTracker, 0 < t.total_input_size →
      t.total_input_size < t.total_output_size →
      get_space_savings t =
        .used ((t.total_output_size : ℚ) - t.total_input_size)
          (((t.total_input_size : ℚ) - t.total_output_size) / t.total_input_size * 100) ∧
        ((t.total_input_size : ℚ) - t.total_output_size) / t.total_input_size * 100 < 0) ∧
    (∀ (t : EnhancedProgressTracker) (skipped : Bool) (iSz oSz : ℕ) (now : ℚ),
      (complete_file t false skipped iSz oSz now).total_input_size = t.total_input_size) := by
  refine ⟨fun t h => get_space_savings_noData h, fun t h => ?_, fun t h1 h2 => ?_,
    fun t skipped iSz oSz now =>
      total_input_size_complete_file_not_success t skipped iSz oSz now⟩
  · have hin : 0 < t.total_input_size := lt_of_le_of_lt (Nat.zero_le _) h
    have hnum : (0 : ℚ) < (t.total_input_size : ℚ) - t.total_output_size :=
      sub_pos.mpr (by exact_mod_cast h)
    have hden : (0 : ℚ) < (t.total_input_size : ℚ) := by exact_mod_cast hin
    exact ⟨get_space_savings_saved h, mul_pos (div_pos hnum hden) (by norm_num)⟩
  · have hnum : ((t.total_input_size : ℚ) - t.total_output_size) < 0 :=
      sub_neg.mpr (by exact_mod_cast h2)
    have hden : (0 : ℚ) < (t.total_input_size : ℚ) := by exact_mod_cast h1
    refine ⟨?_, mul_neg_of_neg_of_pos (div_neg_of_neg_of_pos hnum hden) (by norm_num)⟩
    rw [get_space_savings_used h1 h2, neg_sub]

/-- C7 witness: the claimed literal checks — input 1000 / output 600
gives `saved … (+40%)`, input 1000 / output 1500 gives `used … (-50%)`. -/
theorem space_savings_spec_witness :
    get_space_savings tracker_c7a = .saved 400 40 ∧
      get_space_savings tracker_c7b = .used 500 (-50) := by
  constructor
  · have h := space_savings_spec.2.1 tracker_c7a (by decide)
    rw [h.1]
    norm_num [tracker_c7a]
  · have h := space_savings_spec.2.2.1 tracker_c7b (by decide) (by decide)
    rw [h.1]
    norm_num [tracker_c7b, tracker_c7a]

/-- C7 counterexample: a successful conversion whose recorded input size
is `0` (run.py:302-307 returns `0` when `stat` fails) with a nonzero
output leaves the tracker with one success and output exceeding input,
yet `get_space_savings` still reports no data instead of the claimed
negative "used" percentage. -/
theorem space_savings_zero_input_counterexample :
    (complete_file (start_file (tracker_init 1 0) 1 0) true false 0 5 1).completed_files = 1 ∧
      (complete_file (start_file (tracker_init 1 0) 1 0) true false 0 5 1).total_input_size = 0 ∧
      (complete_file (start_file (tracker_init 1 0) 1 0) true false 0 5 1).total_output_size = 5 ∧
      get_space_savings (complete_file (start_file (tracker_init 1 0) 1 0) true false 0 5 1) =
        .noData :=
  ⟨rfl, rfl, rfl, get_space_savings_noData rfl⟩

/-- C10: for every tracker state with current-file progress in
`[0, 100]`, the overall percentage is an integer in `[0, 100]`
(counters are naturals, hence non-negative); and with a total file count
of zero it is `100` outright. -/
theorem overall_progress_percent_range (t : EnhancedProgressTracker)
    (h0 : 0 ≤ t.current_file_progress) (h100 : t.current_file_progress ≤ 100) :
    0 ≤ get_overall_progress_percent t ∧ get_overall_progress_percent t ≤ 100 ∧
      (t.total_files = 0 → get_overall_progress_percent t = 100) := by
  simp only [get_overall_progress_percent]
  by_cases ht : t.total_files = 0
  · simp [ht]
  · rw [if_neg ht]
    have hfrac : (0 : ℚ) ≤
        (if get_processed_count t < t.total_files
          then (t.current_file_progress : ℚ) / 100 else 0) := by
      split
      · have hp : (0 : ℚ) ≤ (t.current_file_progress : ℚ) := by exact_mod_cast h0
        positivity
      · exact le_refl 0
    have hx : 0 ≤ ((get_processed_count t : ℚ) +
        (if get_processed_count t < t.total_files
          then (t.current_file_progress : ℚ) / 100 else 0)) /
        (t.total_files : ℚ) * 100 :=
      mul_nonneg (div_nonneg (add_nonneg (Nat.cast_nonneg _) hfrac)
        (Nat.cast_nonneg _)) (by norm_num)
    exact ⟨le_min (by norm_num) (pyInt_nonneg hx), min_le_left _ _, fun h => absurd h ht⟩

/-- C10 witness: bounds at a mid-file state, and the `100` answer for an
empty run. -/
theorem overall_progress_percent_range_witness :
    (0 ≤ get_overall_progress_percent tracker_c10 ∧
      get_overall_progress_percent tracker_c10 ≤ 100) ∧
      get_overall_progress_percent (tracker_init 0 0) = 100 := by
  have h1 := overall_progress_percent_range tracker_c10 (by decide) (by decide)
  have h2 := overall_progress_percent_range (tracker_init 0 0) (by decide) (by decide)
  exact ⟨⟨h1.1, h1.2.1⟩, h2.2.2 rfl⟩

/-- C1 (amended): the processed count (success + failed + skipped — the
identity is definitional for the tracker and proved for the `stats`
counters) never exceeds the discovered file count, one completion is
recorded per file handled, and it equals the discovered count whenever
the batch runs to completion WITHOUT interruption; an interrupted batch
stops at the number of files handled before the interrupt. -/
theorem processed_count_invariant (skip_existing : Bool) (events : List LoopEvent) :
    get_processed_count (convert_all skip_existing events).tracker ≤ events.length ∧
    statsSum (convert_all skip_existing events) =
      get_processed_count (convert_all skip_existing events).tracker ∧
    (∀ t : EnhancedProgressTracker,
      get_processed_count t = t.completed_files + t.failed_files + t.skipped_files) ∧
    (NoInterrupt events →
      get_processed_count (convert_all skip_existing events).tracker = events.length) := by
  refine ⟨?_, ?_, fun t => rfl, fun h => ?_⟩
  · have h := runLoop_processed_le skip_existing events 1 (batch_init events.length 0)
    rw [show get_processed_count (batch_init events.length 0).tracker = 0 from rfl,
      zero_add] at h
    rw [convert_all]
    exact h
  · rw [convert_all]
    exact runLoop_statsSum skip_existing events 1 _ rfl
  · have h2 := runLoop_processed_eq skip_existing events h 1 (batch_init events.length 0)
    rw [show get_processed_count (batch_init events.length 0).tracker = 0 from rfl,
      zero_add] at h2
    rw [convert_all]
    exact h2

/-- C1 witness: two clean files, no interrupt — both completions are
counted. -/
theorem processed_count_invariant_witness :
    get_processed_count (convert_all true [okEvent, okEvent]).tracker = 2 :=
  (processed_count_invariant true [okEvent, okEvent]).2.2.2 (by decide)

/-- C1 counterexample: interruption on the third of five files — the run
is interrupted with a processed count of 2, not the discovered count 5
that the claim asserts for an interrupted batch. -/
theorem processed_count_interrupt_counterexample :
    (convert_all true events5).interrupted = true ∧
      get_processed_count (convert_all true events5).tracker = 2 ∧
      events5.length = 5 ∧ (2 : ℕ) ≠ 5 := by decide

/-- C4 (amended): a `KeyboardInterrupt` after an interrupt-free prefix
stops the batch: the remaining events are never consumed (the whole final
state, spawn count included, is the prefix state plus the interrupt
bookkeeping), the interrupt message reports exactly the number of files
processed so far, but the exit status is `0` whenever no file had failed
— interruption alone does NOT produce a nonzero exit, because
run.py:556-559 consumes the `KeyboardInterrupt` inside `convert_all` and
`main`'s status is decided only by the failed count (run.py:620). -/
theorem interrupt_stops_batch (skip_existing : Bool) (pre post : List LoopEvent)
    (hpre : NoInterrupt pre) :
    (convert_all skip_existing (pre ++ LoopEvent.interrupt :: post) =
      interruptState
        (runLoop skip_existing 1 (batch_init (pre ++ LoopEvent.interrupt :: post).length 0) pre)
        (1 + pre.length)) ∧
    (convert_all skip_existing (pre ++ LoopEvent.interrupt :: post)).interrupted = true ∧
    (convert_all skip_existing (pre ++ LoopEvent.interrupt :: post)).reportedProcessed =
      some (get_processed_count
        (convert_all skip_existing (pre ++ LoopEvent.interrupt :: post)).tracker) ∧
    (convert_all skip_existing (pre ++ LoopEvent.interrupt :: post)).spawns =
      (runLoop skip_existing 1
        (batch_init (pre ++ LoopEvent.interrupt :: post).length 0) pre).spawns ∧
    ((convert_all skip_existing (pre ++ LoopEvent.interrupt :: post)).failed = 0 →
      main_exit_code (convert_all skip_existing (pre ++ LoopEvent.interrupt :: post)) = 0) := by
  have hca : convert_all skip_existing (pre ++ LoopEvent.interrupt :: post) =
      interruptState
        (runLoop skip_existing 1 (batch_init (pre ++ LoopEvent.interrupt :: post).length 0) pre)
        (1 + pre.length) := by
    rw [convert_all]
    exact runLoop_interrupt_eq skip_existing pre hpre post 1 _
  have hproc : get_processed_count
      (runLoop skip_existing 1
        (batch_init (pre ++ LoopEvent.interrupt :: post).length 0) pre).tracker =
      pre.length := by
    have h2 := runLoop_processed_eq skip_existing pre hpre 1
      (batch_init (pre ++ LoopEvent.interrupt :: post).length 0)
    rw [show get_processed_count
        (batch_init (pre ++ LoopEvent.interrupt :: post).length 0).tracker = 0 from rfl,
      zero_add] at h2
    exact h2
  refine ⟨hca, ?_, ?_, ?_, ?_⟩
  · rw [hca]; rfl
  · rw [hca]
    show some (1 + pre.length - 1) = some (get_processed_count _)
    rw [show (interruptState _ _).tracker =
        (runLoop skip_existing 1
          (batch_init (pre ++ LoopEvent.interrupt :: post).length 0) pre).tracker from rfl,
      hproc]
    congr 1
    omega
  · rw [hca]; rfl
  · intro h
    rw [main_exit_code, h]
    simp

/-- C4 witness: interrupt on the third of five clean files — run marked
interrupted, message reports the processed count. -/
theorem interrupt_stops_batch_witness :
    (convert_all true events5).interrupted = true ∧
      (convert_all true events5).reportedProcessed =
        some (get_processed_count (convert_all true events5).tracker) := by
  have h := interrupt_stops_batch true [okEvent, okEvent] [okEvent, okEvent] (by decide)
  exact ⟨h.2.1, h.2.2.1⟩

/-- C4 counterexample: interruption after 2 of 5 files, none failed —
the batch stops and reports 2 processed, but the process exit status is
`0`, not the nonzero status the claim demands. -/
theorem interrupt_exit_code_zero_counterexample :
    (convert_all true events5).interrupted = true ∧
      (convert_all true events5).reportedProcessed = some 2 ∧
      (convert_all true events5).failed = 0 ∧
      main_exit_code (convert_all true events5) = 0 := by decide

/-- C5: an `Exception` anywhere in steps 2-7 is caught inside
`convert_video` and converted to the Failed outcome `(False, "error")`
— the only exception `convert_video` ever propagates is the
`KeyboardInterrupt` — and an interrupt-free batch, failures and all,
processes every discovered file and is never marked interrupted. -/
theorem per_file_failure_contained (skip_existing : Bool) :
    (∀ targetExists spawned : Bool, ¬(skip_existing && targetExists) = true →
      convert_video skip_existing targetExists (.raisesExc spawned) =
        .ok ⟨false, "error", spawned, false⟩) ∧
    (∀ (targetExists : Bool) (oc : EncoderOutcome) (u : Unit),
      convert_video skip_existing targetExists oc = .error u → oc = .raisesInterrupt) ∧
    (∀ events : List LoopEvent, NoInterrupt events →
      get_processed_count (convert_all skip_existing events).tracker = events.length ∧
      (convert_all skip_existing events).interrupted = false) := by
  refine ⟨fun tE sp h => ?_, fun tE oc u h => convert_video_error_imp _ _ _ _ h,
    fun events h => ⟨?_, ?_⟩⟩
  · unfold convert_video
    rw [if_neg h]
  · have h2 := runLoop_processed_eq skip_existing events h 1 (batch_init events.length 0)
    rw [show get_processed_count (batch_init events.length 0).tracker = 0 from rfl,
      zero_add] at h2
    rw [convert_all]
    exact h2
  · rw [convert_all]
    exact runLoop_not_interrupted skip_existing events h 1 (batch_init events.length 0)

/-- C5 witness: batch of three files whose second raises an exception —
the exception becomes `(False, "error")`, all three files are processed
and the batch is not interrupted. -/
theorem per_file_failure_contained_witness :
    convert_video false false (.raisesExc true) = .ok ⟨false, "error", true, false⟩ ∧
      get_processed_count (convert_all true [okEvent, excEvent, okEvent]).tracker = 3 ∧
      (convert_all true [okEvent, excEvent, okEvent]).interrupted = false := by
  have h1 := (per_file_failure_contained false).1 false true (by decide)
  have h2 := (per_file_failure_contained true).2.2 [okEvent, excEvent, okEvent] (by decide)
  exact ⟨h1, h2.1, h2.2⟩

/-- C8: with the skip-existing policy enabled and the target present,
`convert_video` returns the Skipped outcome `(True, "skipped")` without
spawning an encoder process, whatever the encoder would have done. -/
theorem skip_existing_no_spawn (oc : EncoderOutcome) :
    convert_video true true oc = .ok ⟨true, "skipped", false, false⟩ := rfl

/-- C9: when the encoder exits nonzero (on a file that was not skipped),
`convert_video` returns the Failed outcome `(False, "failed")` without
raising; the partial output file is removed exactly when it exists and
its deletion does not itself raise — a failing deletion is swallowed and
an absent file is simply not deleted. -/
theorem nonzero_exit_cleanup (skip_existing targetExists : Bool)
    (code : ℤ) (leftoverExists unlinkRaises : Bool)
    (hskip : ¬(skip_existing && targetExists) = true) (hcode : code ≠ 0) :
    convert_video skip_existing targetExists (.exits code leftoverExists unlinkRaises) =
      .ok ⟨false, "failed", true, leftoverExists && !unlinkRaises⟩ := by
  unfold convert_video
  rw [if_neg hskip]
  show (if code = 0
      then (Except.ok ⟨true, "success", true, false⟩ : Except Unit DriveResult)
      else Except.ok ⟨false, "failed", true, leftoverExists && !unlinkRaises⟩) = _
  rw [if_neg hcode]

/-- C9 witness: exit code 1 with a leftover file deletes it; with no
leftover or a failing deletion nothing is removed — the outcome is
Failed in all three cases. -/
theorem nonzero_exit_cleanup_witness :
    convert_video true false (.exits 1 true false) = .ok ⟨false, "failed", true, true⟩ ∧
      convert_video true false (.exits 1 false false) = .ok ⟨false, "failed", true, false⟩ ∧
      convert_video true false (.exits 1 true true) = .ok ⟨false, "failed", true, false⟩ :=
  ⟨nonzero_exit_cleanup true false 1 true false (by decide) (by decide),
    nonzero_exit_cleanup true false 1 false false (by decide) (by decide),
    nonzero_exit_cleanup true false 1 true true (by decide) (by decide)⟩

end HostF
